import Mathlib

/-!
Shallow embedding of the curuza-pos2 stock-ledger core.

The source is a React client over a Supabase/PostgREST store.  We embed the
store (tables `products`, `inventory_transactions`, `sales`, `sale_items`,
`purchase_plans` from `supabase-schema` part of the repository) as a record of
lists, and each write handler (`onSubmit` in `Sales.tsx`, `onSubmit`,
`onEditSubmit`, `onRefillSubmit`, `onDeleteProduct` in `Products.tsx`,
`updatePlanStatus` in `PurchasePlanner.tsx`) as a function on that state.

The handlers are sequences of awaited writes inside a try/catch: a failing
step throws, later steps are skipped, and writes already performed stay in
place (there is no transaction scope in the source).  Each embedded operation
therefore returns the (possibly partially mutated) store together with an
optional error.

Monetary values (prices, discounts, amounts; `DECIMAL(10,2)` columns fed by
`parseFloat`) are embedded as `Rat`; stock and quantities (`INTEGER` columns
fed by `parseInt`) as `Int`; ids (UUIDs) as `Nat` drawn from a `nextId`
counter.
-/

namespace Curuza

/-- `transaction_type IN ('in','out')` from the `inventory_transactions`
schema (`in` is a Lean keyword, hence `tin`/`tout`). -/
inductive TxType where
  | tin
  | tout
deriving DecidableEq, Repr

/-- Row of `products`: `id, name, purchase_price, sale_price, current_stock`
(schema: `current_stock INTEGER NOT NULL DEFAULT 0`), plus the
`additional_costs` list of `{title, price}` used by `Products.tsx`. -/
structure Product where
  id : Nat
  name : String
  purchase_price : Rat
  sale_price : Rat
  current_stock : Int
  additional_costs : List (String × Rat)
deriving DecidableEq, Repr

/-- Row of `inventory_transactions`: `id, product_id, quantity,
transaction_type, notes` (dates and `created_by` carry no logic and are
omitted). -/
structure InventoryTransaction where
  id : Nat
  product_id : Nat
  quantity : Int
  transaction_type : TxType
  notes : String
deriving DecidableEq, Repr

/-- Row of `sales`: `customer_id UUID REFERENCES customers(id)` is nullable,
`customer_name TEXT NOT NULL`; payment fields are `TEXT` with CHECK
constraints, embedded as `String`. -/
structure Sale where
  id : Nat
  customer_id : Option Nat
  customer_name : String
  total_amount : Rat
  discount_amount : Rat
  payment_method : String
  payment_status : String
  notes : String
deriving DecidableEq, Repr

/-- Row of `sale_items`. -/
structure SaleItem where
  id : Nat
  sale_id : Nat
  product_id : Nat
  quantity : Int
  price : Rat
  discount : Rat
deriving DecidableEq, Repr

/-- `status` of a purchase plan (`PurchasePlanner.tsx`:
`"draft" | "scheduled" | "completed" | "cancelled"`). -/
inductive PlanStatus where
  | draft
  | scheduled
  | completed
  | cancelled
deriving DecidableEq, Repr

/-- Row of `purchase_plans` as used by `PurchasePlanner.tsx`. -/
structure PurchasePlan where
  id : Nat
  name : String
  status : PlanStatus
  notes : String
  total_cost : Rat
deriving DecidableEq, Repr

/-- The entity store: one list per table touched by the embedded handlers,
plus the id generator. -/
structure Store where
  products : List Product
  transactions : List InventoryTransaction
  sales : List Sale
  sale_items : List SaleItem
  plans : List PurchasePlan
  nextId : Nat
deriving DecidableEq, Repr

/-- Errors surfaced by the embedded operations.  `validationError` is a zod
resolver rejection (the handler is never entered), `insufficientStock` and
`notFound` come from the spec-modelled `decrease_stock` function,
`singleRowError` is PostgREST `.single()` failing on a null dereference of
its discarded result, `typeError` is a thrown JS `TypeError`,
`hasSalesHistory` is the delete guard's early return. -/
inductive OpError where
  | validationError
  | insufficientStock
  | notFound
  | singleRowError
  | typeError
  | hasSalesHistory
deriving DecidableEq, Repr

/-- Append a row to `inventory_transactions`, consuming one generated id. -/
def insertTransaction (st : Store) (pid : Nat) (q : Int) (t : TxType)
    (notes : String) : Store :=
  { st with
    transactions := st.transactions ++ [⟨st.nextId, pid, q, t, notes⟩]
    nextId := st.nextId + 1 }

/-! ## Sales (`src/src/pages/Sales.tsx`) -/

/-- One entry of the `items` field array of the sale form, after the form's
`parseInt`/`parseFloat` conversions (`product_id` is a free string in the
form; embedded as the id it denotes). -/
structure SaleItemForm where
  product_id : Nat
  price : Rat
  quantity : Int
  discount : Rat
deriving DecidableEq, Repr

/-- The sale form (`saleSchema` shape). -/
structure SaleForm where
  customer_name : String
  items : List SaleItemForm
  payment_method : String
  payment_status : String
  notes : String
deriving DecidableEq, Repr

/-- `saleItemSchema`: `price` positive, `quantity` a positive integer,
`discount` non-negative. `product_id` is only required to be a string, which
every embedded value is, so it contributes no check. -/
def saleItemValid (i : SaleItemForm) : Bool :=
  decide (0 < i.price) && decide (0 < i.quantity) && decide (0 ≤ i.discount)

/-- `saleSchema`: non-empty `customer_name`, at least one item, every item
per `saleItemSchema`, payment fields drawn from their enums. -/
def saleFormValid (d : SaleForm) : Bool :=
  decide (1 ≤ d.customer_name.length)
    && decide (1 ≤ d.items.length)
    && d.items.all saleItemValid
    && ["cash", "card", "transfer", "other"].contains d.payment_method
    && ["paid", "pending", "partial"].contains d.payment_status

/-- `calculateItemTotal`: `(price * quantity) - discount`. -/
def calculateItemTotal (price : Rat) (quantity : Int) (discount : Rat) : Rat :=
  price * (quantity : Rat) - discount

/-- Modelled from the spec: the `decrease_stock` database function invoked by
`supabase.rpc('decrease_stock', ...)` in `Sales.tsx` is not part of the
source tree (only its caller is).  Per spec §4.1 (`record_movement`), a
stock-out fails with `InsufficientStock` when the quantity exceeds
`current_stock` (stock must never go negative) and with `NotFound` when the
product id is unknown; otherwise it atomically decrements `current_stock`. -/
def decrease_stock (st : Store) (pid : Nat) (q : Int) : Except OpError Store :=
  match st.products.find? (fun p => p.id = pid) with
  | none => .error .notFound
  | some p =>
      if p.current_stock < q then
        .error .insufficientStock
      else
        .ok { st with
              products := st.products.map fun p' =>
                if p'.id = pid then
                  { p' with current_stock := p'.current_stock - q }
                else p' }

/-- The per-item loop of `Sales.tsx onSubmit`: for each item, first insert
the `out` inventory transaction, then call the `decrease_stock` rpc; the
first failing step aborts the loop and the error is thrown (writes already
made stay). -/
def saleProcessItems (st : Store) (cname : String) :
    List SaleItemForm → Store × Option OpError
  | [] => (st, none)
  | item :: rest =>
      let st1 := insertTransaction st item.product_id item.quantity .tout
        ("Sale: " ++ cname)
      match decrease_stock st1 item.product_id item.quantity with
      | .error e => (st1, some e)
      | .ok st2 => saleProcessItems st2 cname rest

/-- `Sales.tsx onSubmit`: compute totals, insert the sale row (with no
`customer_id` — the insert payload has only `customer_name` and the payment
fields), insert all sale items, then run the per-item stock loop. -/
def recordSale (st : Store) (d : SaleForm) : Store × Option OpError :=
  let totalAmount := d.items.foldl
    (fun t i => t + calculateItemTotal i.price i.quantity i.discount) 0
  let discountAmount := d.items.foldl (fun t i => t + i.discount) 0
  let saleId := st.nextId
  let st1 : Store :=
    { st with
      sales := st.sales ++ [⟨saleId, none, d.customer_name, totalAmount,
        discountAmount, d.payment_method, d.payment_status, d.notes⟩]
      nextId := saleId + 1 }
  let st2 := d.items.foldl
    (fun s i =>
      { s with
        sale_items := s.sale_items ++
          [⟨s.nextId, saleId, i.product_id, i.quantity, i.price, i.discount⟩]
        nextId := s.nextId + 1 })
    st1
  saleProcessItems st2 d.customer_name d.items

/-- The form gate: `form.handleSubmit(onSubmit)` runs the zod resolver first
and only calls `onSubmit` on valid data; invalid data never reaches any
write. -/
def submitSale (st : Store) (d : SaleForm) : Store × Option OpError :=
  if saleFormValid d then recordSale st d else (st, some .validationError)

/-! ## Products (`src/src/pages/Products.tsx`) -/

/-- The product form after the handlers' `parseFloat`/`parseInt`
conversions (`productSchema` fields are strings in the form). -/
structure ProductForm where
  name : String
  purchase_price : Rat
  sale_price : Rat
  current_stock : Int
  additional_costs : List (String × Rat)
deriving DecidableEq, Repr

/-- `productSchema`: name at least 2 characters, positive prices,
non-negative stock, non-negative additional-cost prices. -/
def productFormValid (d : ProductForm) : Bool :=
  decide (2 ≤ d.name.length)
    && decide (0 < d.purchase_price)
    && decide (0 < d.sale_price)
    && decide (0 ≤ d.current_stock)
    && d.additional_costs.all fun c =>
        decide (1 ≤ c.1.length) && decide (0 ≤ c.2)

/-- `Products.tsx onSubmit` (create): insert the product row, then — when the
entered stock is positive — recover the generated id with
`select("id").eq("name", data.name).single()` and insert the "Initial stock"
transaction.  `.single()` errors unless exactly one row matches the name, and
that error is discarded by the destructuring, so `productData.id` then throws
a `TypeError` and the transaction is never inserted. -/
def createProduct (st : Store) (d : ProductForm) : Store × Option OpError :=
  let pid := st.nextId
  let st1 : Store :=
    { st with
      products := st.products ++
        [⟨pid, d.name, d.purchase_price, d.sale_price, d.current_stock,
          d.additional_costs⟩]
      nextId := pid + 1 }
  if 0 < d.current_stock then
    match st1.products.filter (fun p => p.name = d.name) with
    | [p] => (insertTransaction st1 p.id d.current_stock .tin "Initial stock",
              none)
    | _ => (st1, some .singleRowError)
  else
    (st1, none)

/-- `Products.tsx onEditSubmit`: `editingProduct` is the row snapshot held in
component state; `stockDifference` is the entered stock minus the snapshot's
`current_stock`; the row is updated, then a single adjustment transaction of
`Math.abs(stockDifference)` is inserted when the difference is non-zero. -/
def onEditSubmit (st : Store) (editing : Product) (d : ProductForm) :
    Store × Option OpError :=
  let stockDifference := d.current_stock - editing.current_stock
  let st1 : Store :=
    { st with
      products := st.products.map fun p =>
        if p.id = editing.id then
          { p with
            name := d.name
            purchase_price := d.purchase_price
            sale_price := d.sale_price
            current_stock := d.current_stock
            additional_costs := d.additional_costs }
        else p }
  if stockDifference ≠ 0 then
    let transactionType : TxType := if 0 < stockDifference then .tin else .tout
    (insertTransaction st1 editing.id |stockDifference| transactionType
      "Stock adjustment during product edit", none)
  else
    (st1, none)

/-- `Products.tsx onRefillSubmit`: set `current_stock` to the snapshot's
value plus the quantity, then insert one `in` transaction whose notes default
to "Stock refill" when the notes field is falsy (empty). -/
def onRefillSubmit (st : Store) (refillP : Product) (quantity : Int)
    (notes : String) : Store :=
  let st1 : Store :=
    { st with
      products := st.products.map fun p =>
        if p.id = refillP.id then
          { p with current_stock := refillP.current_stock + quantity }
        else p }
  insertTransaction st1 refillP.id quantity .tin
    (if notes = "" then "Stock refill" else notes)

/-- `Products.tsx onDeleteProduct`: count `sale_items` referencing the
product; a positive count aborts with the "has sales records" rejection and
no write; otherwise delete the product's inventory transactions first, then
the product row. -/
def onDeleteProduct (st : Store) (pid : Nat) : Store × Option OpError :=
  let saleCount := (st.sale_items.filter (fun si => si.product_id = pid)).length
  if 0 < saleCount then
    (st, some .hasSalesHistory)
  else
    let st1 : Store :=
      { st with
        transactions := st.transactions.filter fun t => ¬ t.product_id = pid }
    ({ st1 with products := st1.products.filter fun p => ¬ p.id = pid }, none)

/-! ## Purchase plans (`src/src/pages/PurchasePlanner.tsx`) -/

/-- The joined product record carried by a fetched plan item:
`fetchPlanItems` selects `product:product_id(id, name)`, so the record has
only these two fields — in particular no `current_stock`. -/
structure PlanItemProductRef where
  id : Nat
  name : String
deriving DecidableEq, Repr

/-- A `purchase_plan_items` row as held in the `planItems` component state
(the shape produced by `fetchPlanItems`): `product` is the joined record
above, null exactly when `product_id` is null. -/
structure FetchedPlanItem where
  id : Nat
  purchase_plan_id : Nat
  product_id : Option Nat
  prod_name : String
  quantity : Int
  unit_price : Rat
  product : Option PlanItemProductRef
deriving DecidableEq, Repr

/-- One iteration of the completion loop in `updatePlanStatus`.  The stock
update computes `item.product.current_stock + item.quantity`: when
`item.product` is null (free-text item) the member access throws a
`TypeError`, aborting the loop; when it is the joined record, the access
yields `undefined` (the join selected only id and name), the sum is `NaN`,
the JSON payload serializes it as null, and the `NOT NULL` column
`current_stock` rejects the update — whose error result the source never
checks, so the write is silently dropped.  The subsequent transaction insert
(also unchecked) succeeds for a referenced item and is rejected (null
`product_id`) otherwise. -/
def completeItemStep (st : Store) (planName : String)
    (item : FetchedPlanItem) : Store × Option OpError :=
  match item.product with
  | none => (st, some .typeError)
  | some _ =>
      match item.product_id with
      | some pid =>
          (insertTransaction st pid item.quantity .tin
            ("Purchase from plan: " ++ planName), none)
      | none => (st, none)

/-- The `for (const item of planItems)` loop run when a plan is marked
completed; a thrown step aborts the remainder. -/
def completeLoop (planName : String) :
    Store → List FetchedPlanItem → Store × Option OpError
  | st, [] => (st, none)
  | st, item :: rest =>
      match completeItemStep st planName item with
      | (st1, some e) => (st1, some e)
      | (st1, none) => completeLoop planName st1 rest

/-- `PurchasePlanner.tsx updatePlanStatus`: unconditionally write the
requested status to the plan row (no guard against the current status), then
— only when the new status is `completed` — run the inventory loop over the
fetched plan items. -/
def updatePlanStatus (st : Store) (plan : PurchasePlan)
    (items : List FetchedPlanItem) (status : PlanStatus) :
    Store × Option OpError :=
  let st1 : Store :=
    { st with
      plans := st.plans.map fun pl =>
        if pl.id = plan.id then { pl with status := status } else pl }
  if status = .completed then completeLoop plan.name st1 items
  else (st1, none)

/-- The status-change actions the page renders for a plan (the buttons at
lines 567–585): `draft` offers only "scheduled"; `scheduled` offers "draft",
"completed" and "cancelled"; `completed` and `cancelled` offer none. -/
def offeredStatusChanges : PlanStatus → List PlanStatus
  | .draft => [.scheduled]
  | .scheduled => [.draft, .completed, .cancelled]
  | .completed => []
  | .cancelled => []

/-! ## The ledger invariant (spec §4.1 / §8) -/

/-- Signed quantity of a transaction: `in` counts positive, `out` negative. -/
def txSigned (t : InventoryTransaction) : Int :=
  match t.transaction_type with
  | .tin => t.quantity
  | .tout => -t.quantity

/-- Replay of a product's transaction history from zero (product creation
records its initial stock as an `in` transaction, so the ledger replays from
an empty history). -/
def ledgerSum (st : Store) (pid : Nat) : Int :=
  (st.transactions.filter (fun t => t.product_id = pid)).foldl
    (fun a t => a + txSigned t) 0

/-- The reconciliation invariant: every product's materialized
`current_stock` equals the replay of its transaction log. -/
def stockInvariant (st : Store) : Bool :=
  st.products.all fun p => decide (p.current_stock = ledgerSum st p.id)

/-! ## Concrete stores and inputs used to settle the claims -/

/-- Two products in stock: P1 with 5 units, P2 with 3 units. -/
def stC1 : Store :=
  ⟨[⟨0, "P1", 5, 10, 5, []⟩, ⟨1, "P2", 2, 4, 3, []⟩], [], [], [], [], 2⟩

/-- A two-item sale: 2 units of P1 (in stock) and 4 units of P2 (only 3 in
stock, so the second stock movement fails). -/
def dC1 : SaleForm :=
  ⟨"Bob", [⟨0, 10, 2, 0⟩, ⟨1, 4, 4, 0⟩], "cash", "paid", ""⟩

/-- Product P with `current_stock = 5` and a scheduled plan, with a
reconciled ledger. -/
def stC2 : Store :=
  ⟨[⟨0, "P", 1, 2, 5, []⟩], [⟨1, 0, 5, .tin, "Initial stock"⟩], [], [],
   [⟨2, "Plan B", .scheduled, "", 12⟩], 3⟩

/-- The scheduled plan of `stC2` as held in `currentPlan`. -/
def planC2 : PurchasePlan := ⟨2, "Plan B", .scheduled, "", 12⟩

/-- One plan item referencing P (quantity 3), in the shape `fetchPlanItems`
produces: the joined product record has only id and name. -/
def itemsC2 : List FetchedPlanItem := [⟨10, 2, some 0, "P", 3, 4, some ⟨0, "P"⟩⟩]

/-- Product P with `current_stock = 7` (spec §8 Scenario 3), ledger
reconciled. -/
def stC3 : Store :=
  ⟨[⟨0, "P", 50, 100, 7, []⟩], [⟨1, 0, 7, .tin, "Initial stock"⟩], [], [], [], 2⟩

/-- An attempt to sell 8 units of P while only 7 are in stock. -/
def dC3 : SaleForm := ⟨"Ann", [⟨0, 100, 8, 0⟩], "cash", "paid", ""⟩

/-- Product P with plenty of stock. -/
def stC4 : Store := ⟨[⟨0, "P", 2, 5, 100, []⟩], [], [], [], [], 1⟩

/-- A sale whose single item has `discount = 100` exceeding
`quantity × unit_price = 1 × 5`. -/
def dC4 : SaleForm := ⟨"Cy", [⟨0, 5, 1, 100⟩], "cash", "paid", ""⟩

/-- An invalid sale form: the items list is empty. -/
def dC4e : SaleForm := ⟨"Dee", [], "cash", "paid", ""⟩

/-- Product P with `current_stock = 5` and a scheduled plan "Plan A"
(spec §8 Scenario 5 shape). -/
def stC5 : Store :=
  ⟨[⟨0, "P", 1, 2, 5, []⟩], [⟨1, 0, 5, .tin, "Initial stock"⟩], [], [],
   [⟨2, "Plan A", .scheduled, "", 20⟩], 3⟩

/-- The scheduled plan of `stC5`. -/
def planC5 : PurchasePlan := ⟨2, "Plan A", .scheduled, "", 20⟩

/-- Two fetched plan items: one referencing P with quantity 5, one free-text
only (`product_id` and joined `product` both null). -/
def itemsC5 : List FetchedPlanItem :=
  [⟨10, 2, some 0, "P", 5, 4, some ⟨0, "P"⟩⟩,
   ⟨11, 2, none, "X", 2, 3, none⟩]

/-- A store holding product P with `current_stock = 7` for the edit
scenario (spec §8 Scenario 4). -/
def stC6 : Store :=
  ⟨[⟨0, "P", 50, 100, 7, []⟩], [⟨1, 0, 7, .tin, "Initial stock"⟩], [], [], [], 2⟩

/-- The row snapshot of P held in `editingProduct`. -/
def pC6 : Product := ⟨0, "P", 50, 100, 7, []⟩

/-- An edit form setting the stock field from 7 to 12. -/
def dC6 : ProductForm := ⟨"P", 50, 100, 12, []⟩

/-- An edit form leaving the stock field at 7. -/
def dC6e : ProductForm := ⟨"P", 55, 100, 7, []⟩

/-- A completed plan. -/
def stC7 : Store := ⟨[], [], [], [], [⟨0, "Plan C", .completed, "", 0⟩], 1⟩

/-- The completed plan of `stC7` as held in `currentPlan`. -/
def planC7 : PurchasePlan := ⟨0, "Plan C", .completed, "", 0⟩

/-- A scheduled plan for the C7 witness. -/
def stC7w : Store := ⟨[], [], [], [], [⟨0, "Plan D", .scheduled, "", 0⟩], 1⟩

/-- The scheduled plan of `stC7w`. -/
def planC7w : PurchasePlan := ⟨0, "Plan D", .scheduled, "", 0⟩

/-- A store where one sale item references product 0. -/
def stC8 : Store :=
  ⟨[⟨0, "P", 2, 5, 4, []⟩], [⟨1, 0, 4, .tin, "Initial stock"⟩],
   [⟨2, none, "Eve", 10, 0, "cash", "paid", ""⟩], [⟨3, 2, 0, 2, 5, 0⟩], [], 4⟩

/-- A store where product 0 has transactions but no sale items. -/
def stC8b : Store :=
  ⟨[⟨0, "P", 2, 5, 4, []⟩], [⟨1, 0, 4, .tin, "Initial stock"⟩], [], [], [], 2⟩

/-- The empty store. -/
def stC9 : Store := ⟨[], [], [], [], [], 0⟩

/-- A create form for product "P" with initial stock 7. -/
def dC9a : ProductForm := ⟨"P", 2, 3, 7, []⟩

/-- A second create form reusing the name "P", with initial stock 10. -/
def dC9b : ProductForm := ⟨"P", 2, 3, 10, []⟩

/-- A create form with initial stock 0. -/
def dC9z : ProductForm := ⟨"Empty", 2, 3, 0, []⟩

/-! ## Helper lemmas -/

/-- A successful `decrease_stock` only rewrites `products`. -/
theorem decrease_stock_ok (st : Store) (pid : Nat) (q : Int) (st' : Store)
    (h : decrease_stock st pid q = .ok st') :
    st'.sales = st.sales ∧ st'.sale_items = st.sale_items ∧
      st'.transactions = st.transactions ∧ st'.plans = st.plans := by
  unfold decrease_stock at h
  split at h
  · cases h
  · split at h
    · cases h
    · cases h
      exact ⟨rfl, rfl, rfl, rfl⟩

/-- The per-item sale loop never touches the `sales` table. -/
theorem saleProcessItems_sales (cname : String) :
    ∀ (items : List SaleItemForm) (st : Store),
      (saleProcessItems st cname items).1.sales = st.sales := by
  intro items
  induction items with
  | nil => intro st; rfl
  | cons item rest ih =>
      intro st
      simp only [saleProcessItems]
      rcases hd : decrease_stock (insertTransaction st item.product_id
          item.quantity .tout ("Sale: " ++ cname)) item.product_id
          item.quantity with e | st2
      · rfl
      · show (saleProcessItems st2 cname rest).1.sales = st.sales
        rw [ih st2]
        exact (decrease_stock_ok _ _ _ _ hd).1

/-- The sale-items insertion fold never touches the `sales` table. -/
theorem saleItemsFold_sales (saleId : Nat) :
    ∀ (items : List SaleItemForm) (st : Store),
      (items.foldl (fun s i =>
        { s with
          sale_items := s.sale_items ++
            [⟨s.nextId, saleId, i.product_id, i.quantity, i.price,
              i.discount⟩]
          nextId := s.nextId + 1 }) st).sales = st.sales := by
  intro items
  induction items with
  | nil => intro st; rfl
  | cons item rest ih => intro st; exact ih _

/-- A completion-loop step never touches the `plans` table. -/
theorem completeItemStep_plans (st : Store) (planName : String)
    (item : FetchedPlanItem) :
    (completeItemStep st planName item).1.plans = st.plans := by
  unfold completeItemStep
  rcases item.product with _ | r
  · rfl
  · rcases item.product_id with _ | pid <;> rfl

/-- The completion loop never touches the `plans` table. -/
theorem completeLoop_plans (planName : String) :
    ∀ (items : List FetchedPlanItem) (st : Store),
      (completeLoop planName st items).1.plans = st.plans := by
  intro items
  induction items with
  | nil => intro st; rfl
  | cons item rest ih =>
      intro st
      have hstep := completeItemStep_plans st planName item
      unfold completeLoop
      rcases hs : completeItemStep st planName item with ⟨st1, e⟩
      rw [hs] at hstep
      cases e with
      | none =>
          show (completeLoop planName st1 rest).1.plans = st.plans
          rw [ih st1]
          exact hstep
      | some err => exact hstep

/-- The edit handler rewrites `products` pointwise: the row(s) matching the
edited id take all the form's fields (including the stock value). -/
theorem onEditSubmit_products (st : Store) (p : Product) (d : ProductForm) :
    (onEditSubmit st p d).1.products =
      st.products.map fun q =>
        if q.id = p.id then
          { q with
            name := d.name
            purchase_price := d.purchase_price
            sale_price := d.sale_price
            current_stock := d.current_stock
            additional_costs := d.additional_costs }
        else q := by
  simp only [onEditSubmit, insertTransaction]
  split_ifs <;> rfl

/-- With a non-zero stock difference, the edit appends exactly one
adjustment transaction. -/
theorem onEditSubmit_nonzero (st : Store) (p : Product) (d : ProductForm)
    (h : d.current_stock - p.current_stock ≠ 0) :
    (onEditSubmit st p d).1.transactions =
      st.transactions ++
        [⟨st.nextId, p.id, |d.current_stock - p.current_stock|,
          if 0 < d.current_stock - p.current_stock then TxType.tin
          else TxType.tout,
          "Stock adjustment during product edit"⟩] := by
  simp only [onEditSubmit, insertTransaction]
  rw [if_pos h]

/-- With a zero stock difference, the edit appends no transaction. -/
theorem onEditSubmit_zero (st : Store) (p : Product) (d : ProductForm)
    (h : d.current_stock - p.current_stock = 0) :
    (onEditSubmit st p d).1.transactions = st.transactions := by
  simp only [onEditSubmit, insertTransaction]
  rw [if_neg (not_not_intro h)]

/-! ## Claim theorems -/

/-- C1: the sale coordinator is not atomic and has no compensation. A valid
two-item sale whose second stock movement fails (P2 has 3 units, 4
requested) leaves the store with the Sale, both SaleItems and both `out`
transactions persisted, the first product decremented and the second not —
the Sale and SaleItems are not rolled back, and the surfaced error is the
raw `InsufficientStock` from the failed movement (the source has no
`PartialSaleFailure` and no rollback path). -/
theorem recordSale_not_atomic_at_failing_input :
    saleFormValid dC1 = true
      ∧ (submitSale stC1 dC1).2 = some OpError.insufficientStock
      ∧ (submitSale stC1 dC1).1.sales.length = 1
      ∧ (submitSale stC1 dC1).1.sale_items.length = 2
      ∧ ((submitSale stC1 dC1).1.transactions.map
          InventoryTransaction.transaction_type) = [.tout, .tout]
      ∧ ((submitSale stC1 dC1).1.products.map Product.current_stock) =
          [3, 3] := by
  decide

/-- C2: the reconciliation invariant is broken by purchase-plan completion.
Starting from a reconciled store (P has stock 5 and a single `in 5` entry),
completing a scheduled plan with one item referencing P (quantity 3) appends
an `in 3` transaction but leaves `current_stock` at 5 (the update payload is
built from the joined plan-item record which carries no `current_stock`, so
the write is `NaN`, rejected by the NOT NULL column, and its error is never
checked): afterwards `current_stock = 5` while the ledger replays to 8. -/
theorem stockInvariant_broken_by_plan_completion :
    stockInvariant stC2 = true
      ∧ (updatePlanStatus stC2 planC2 itemsC2 .completed).2 = none
      ∧ ((updatePlanStatus stC2 planC2 itemsC2 .completed).1.transactions.map
          InventoryTransaction.quantity) = [5, 3]
      ∧ ((updatePlanStatus stC2 planC2 itemsC2 .completed).1.products.map
          Product.current_stock) = [5]
      ∧ stockInvariant (updatePlanStatus stC2 planC2 itemsC2 .completed).1 =
          false := by
  decide

/-- C3: an over-stock sale is not side-effect free. Selling 8 units of P
with `current_stock = 7` (spec Scenario 3) does fail on the stock movement
and leaves `current_stock` at 7, but only after the Sale, its SaleItem and
the `out 8` inventory transaction were all persisted — the claim's "no
Sale, SaleItem, or InventoryTransaction is created" is violated. -/
theorem insufficientStock_sale_leaves_side_effects :
    saleFormValid dC3 = true
      ∧ (submitSale stC3 dC3).2 = some OpError.insufficientStock
      ∧ ((submitSale stC3 dC3).1.products.map Product.current_stock) = [7]
      ∧ (submitSale stC3 dC3).1.sales.length = 1
      ∧ (submitSale stC3 dC3).1.sale_items.length = 1
      ∧ ((submitSale stC3 dC3).1.transactions.filter
          (fun t => t.transaction_type = .tout)).length = 1 := by
  decide

/-- C4 counterexample: a sale item whose discount (100) exceeds
`quantity × unit_price` (1 × 5) passes the form validation and the sale is
recorded — the claim that such input is rejected with no record created is
false. -/
theorem discount_cap_not_validated :
    dC4.items.map SaleItemForm.discount = [100]
      ∧ dC4.items.map SaleItemForm.price = [5]
      ∧ dC4.items.map SaleItemForm.quantity = [1]
      ∧ ¬ ((100 : Rat) ≤ 5)
      ∧ saleFormValid dC4 = true
      ∧ (submitSale stC4 dC4).2 = none
      ∧ (submitSale stC4 dC4).1.sales.length = 1 := by
  decide

/-- C4 (amended): the form gate is fail-fast — data rejected by the zod
schema (`saleFormValid`) produces no write at all, and data it accepts is
passed straight to the write sequence; the schema itself checks only
customer-name/item-list non-emptiness, positive price, positive integer
quantity, non-negative discount and the payment enums, not the discount cap
nor stock sufficiency. -/
theorem sale_validation_fail_fast (st : Store) (d : SaleForm) :
    (saleFormValid d = false → submitSale st d = (st, some .validationError))
      ∧ (saleFormValid d = true → submitSale st d = recordSale st d) := by
  constructor
  · intro h
    simp [submitSale, h]
  · intro h
    simp [submitSale, h]

/-- C4 (amended) witness: the empty-item form is rejected with the store
untouched; the discount-exceeding form of the counterexample is accepted
and handed to `recordSale`. -/
theorem sale_validation_fail_fast_witness :
    submitSale stC4 dC4e = (stC4, some .validationError)
      ∧ submitSale stC4 dC4 = recordSale stC4 dC4 :=
  ⟨(sale_validation_fail_fast stC4 dC4e).1 (by decide),
   (sale_validation_fail_fast stC4 dC4).2 (by decide)⟩

/-- C5: completing a scheduled plan with one item referencing P (quantity 5)
and one free-text item (spec Scenario 5) marks the plan completed and
creates the referenced item's `in 5` transaction with the
"Purchase from plan" notes, but P's `current_stock` stays 5 instead of
rising to 10 (the stock write is `NaN` — the joined record has no
`current_stock` — and its error is ignored), and the free-text item is not
skipped: the null join dereference throws a `TypeError` that aborts the
loop. -/
theorem plan_completion_stock_effect_broken :
    ((updatePlanStatus stC5 planC5 itemsC5 .completed).1.plans.map
        PurchasePlan.status) = [.completed]
      ∧ (updatePlanStatus stC5 planC5 itemsC5 .completed).2 =
          some OpError.typeError
      ∧ ((updatePlanStatus stC5 planC5 itemsC5 .completed).1.products.map
          Product.current_stock) = [5]
      ∧ ((updatePlanStatus stC5 planC5 itemsC5 .completed).1.transactions.filter
          (fun t => t.notes = "Purchase from plan: Plan A")) =
          [⟨3, 0, 5, .tin, "Purchase from plan: Plan A"⟩] := by
  decide

/-- C7 counterexample: `updatePlanStatus` applied to a completed plan with
requested status "draft" succeeds (no error of any kind) and moves the plan
out of the terminal state — there is no `InvalidStateTransition` failure in
the code. -/
theorem completed_plan_moved_to_draft :
    (updatePlanStatus stC7 planC7 [] .draft).2 = none
      ∧ ((updatePlanStatus stC7 planC7 [] .draft).1.plans.map
          PurchasePlan.status) = [.draft] := by
  decide

/-- C9 counterexample: creating a second product named "P" with initial
stock 10 (a product of that name already exists) leaves the new product with
`current_stock = 10` and zero inventory transactions: the id recovery
`select("id").eq("name", ...).single()` fails on two rows, the discarded
error leads to a thrown `TypeError`, and the "Initial stock" transaction is
never inserted. -/
theorem duplicate_name_create_loses_initial_stock_transaction :
    (createProduct stC9 dC9a).2 = none
      ∧ (createProduct (createProduct stC9 dC9a).1 dC9b).2 =
          some OpError.singleRowError
      ∧ ((createProduct (createProduct stC9 dC9a).1 dC9b).1.products.map
          Product.current_stock) = [7, 10]
      ∧ ((createProduct (createProduct stC9 dC9a).1 dC9b).1.transactions.filter
          (fun t => t.product_id = 2)) = [] := by
  decide

/-- C6: the stock field of a product edit is reconciled against the ledger:
with `delta = new_stock − current_stock`, a non-zero delta appends exactly
one transaction of quantity `|delta|` with type `in` for positive and `out`
for negative delta and notes "Stock adjustment during product edit"; a zero
delta appends none; and repeating the edit with the same stock value is a
no-op on the ledger (the updated row now carries the entered stock, so the
second delta is zero). -/
theorem edit_stock_reconciliation (st : Store) (p : Product) (d : ProductForm) :
    (d.current_stock - p.current_stock ≠ 0 →
        (onEditSubmit st p d).1.transactions =
          st.transactions ++
            [⟨st.nextId, p.id, |d.current_stock - p.current_stock|,
              if 0 < d.current_stock - p.current_stock then TxType.tin
              else TxType.tout,
              "Stock adjustment during product edit"⟩])
      ∧ (d.current_stock - p.current_stock = 0 →
          (onEditSubmit st p d).1.transactions = st.transactions)
      ∧ (∀ p', p' ∈ (onEditSubmit st p d).1.products → p'.id = p.id →
          (onEditSubmit (onEditSubmit st p d).1 p' d).1.transactions =
            (onEditSubmit st p d).1.transactions) := by
  refine ⟨onEditSubmit_nonzero st p d, onEditSubmit_zero st p d, ?_⟩
  intro p' hmem hid
  rw [onEditSubmit_products] at hmem
  obtain ⟨q, hq, hfq⟩ := List.mem_map.mp hmem
  have hstock : p'.current_stock = d.current_stock := by
    by_cases hqid : q.id = p.id
    · rw [if_pos hqid] at hfq
      rw [← hfq]
    · rw [if_neg hqid] at hfq
      rw [← hfq] at hid
      exact absurd hid hqid
  exact onEditSubmit_zero _ p' d (by rw [hstock, sub_self])

/-- C6 witness: editing P's stock from 7 to 12 (spec Scenario 4) appends the
single `in 5` adjustment entry; an edit leaving the stock at 7 appends
nothing. -/
theorem edit_stock_reconciliation_witness :
    ((onEditSubmit stC6 pC6 dC6).1.transactions =
        stC6.transactions ++
          [⟨stC6.nextId, pC6.id, |dC6.current_stock - pC6.current_stock|,
            if 0 < dC6.current_stock - pC6.current_stock then TxType.tin
            else TxType.tout,
            "Stock adjustment during product edit"⟩])
      ∧ (onEditSubmit stC6 pC6 dC6e).1.transactions = stC6.transactions :=
  ⟨(edit_stock_reconciliation stC6 pC6 dC6).1 (by decide),
   (edit_stock_reconciliation stC6 pC6 dC6e).2.1 (by decide)⟩

/-- C7 (amended): the page offers exactly the transitions draft→scheduled
and scheduled→{draft, completed, cancelled}, and offers none out of
completed or cancelled — but the guard lives solely in which buttons are
rendered: `updatePlanStatus` itself writes whatever status it is handed,
regardless of the plan's current status, and no `InvalidStateTransition`
failure exists anywhere in the code. -/
theorem plan_status_machine :
    offeredStatusChanges .draft = [.scheduled]
      ∧ offeredStatusChanges .scheduled = [.draft, .completed, .cancelled]
      ∧ offeredStatusChanges .completed = []
      ∧ offeredStatusChanges .cancelled = []
      ∧ (∀ (st : Store) (plan : PurchasePlan) (items : List FetchedPlanItem)
          (status : PlanStatus),
          (updatePlanStatus st plan items status).1.plans =
            st.plans.map fun pl =>
              if pl.id = plan.id then { pl with status := status } else pl)
      ∧ (∀ (st : Store) (plan : PurchasePlan) (items : List FetchedPlanItem)
          (status : PlanStatus), status ≠ PlanStatus.completed →
          updatePlanStatus st plan items status =
            ({ st with
               plans := st.plans.map fun pl =>
                 if pl.id = plan.id then { pl with status := status } else pl },
             none)) := by
  refine ⟨rfl, rfl, rfl, rfl, ?_, ?_⟩
  · intro st plan items status
    simp only [updatePlanStatus]
    split_ifs with hc
    · rw [completeLoop_plans]
    · rfl
  · intro st plan items status h
    simp only [updatePlanStatus]
    rw [if_neg h]

/-- C7 (amended) witness: a scheduled plan moved to "scheduled → draft"
territory — here the non-completion path at a concrete input. -/
theorem plan_status_machine_witness :
    updatePlanStatus stC7w planC7w [] .scheduled =
      ({ stC7w with
         plans := stC7w.plans.map fun pl =>
           if pl.id = planC7w.id then { pl with status := .scheduled }
           else pl },
       none) :=
  plan_status_machine.2.2.2.2.2 stC7w planC7w [] .scheduled (by decide)

/-- C8: deleting a product with at least one referencing SaleItem is
rejected with the sales-history guard and the store is untouched; with no
referencing SaleItem, the product's inventory transactions are removed
(first) and then the product row, and nothing else changes. -/
theorem delete_product_sales_guard (st : Store) (pid : Nat) :
    ((∃ si ∈ st.sale_items, si.product_id = pid) →
        onDeleteProduct st pid = (st, some OpError.hasSalesHistory))
      ∧ ((∀ si ∈ st.sale_items, si.product_id ≠ pid) →
          onDeleteProduct st pid =
            ({ st with
               transactions := st.transactions.filter
                 fun t => ¬ t.product_id = pid
               products := st.products.filter fun p => ¬ p.id = pid },
             none)) := by
  constructor
  · rintro ⟨si, hsi, hpid⟩
    have hpos : 0 <
        (st.sale_items.filter fun si => si.product_id = pid).length :=
      List.length_pos_of_mem (List.mem_filter.mpr ⟨hsi, by simp [hpid]⟩)
    simp only [onDeleteProduct]
    rw [if_pos hpos]
  · intro h
    have hnil : (st.sale_items.filter fun si => si.product_id = pid) = [] :=
      List.filter_eq_nil_iff.mpr fun a ha => by simp [h a ha]
    simp only [onDeleteProduct]
    rw [hnil]
    rfl

/-- C8 witness: deleting product 0 of `stC8` (referenced by a sale item) is
rejected with the store unchanged; deleting product 0 of `stC8b` (no sale
items) removes its transactions and the row. -/
theorem delete_product_sales_guard_witness :
    onDeleteProduct stC8 0 = (stC8, some OpError.hasSalesHistory)
      ∧ onDeleteProduct stC8b 0 =
        ({ stC8b with
           transactions := stC8b.transactions.filter
             fun t => ¬ t.product_id = 0
           products := stC8b.products.filter fun p => ¬ p.id = 0 },
         none) :=
  ⟨(delete_product_sales_guard stC8 0).1 ⟨⟨3, 2, 0, 2, 5, 0⟩, by decide, rfl⟩,
   (delete_product_sales_guard stC8b 0).2 (by decide)⟩

/-- C9 (amended): creating a product whose name is not already taken, with a
positive initial stock, produces the product row with `current_stock` equal
to the entered initial stock and exactly one inventory transaction for the
new product: type `in`, quantity the initial stock, notes "Initial stock";
with a non-positive initial stock no transaction is created.  The
name-uniqueness hypothesis is forced by the source's id recovery
`select("id").eq("name", data.name).single()`. -/
theorem create_product_ledger_entry (st : Store) (d : ProductForm)
    (hname : ∀ p ∈ st.products, p.name ≠ d.name)
    (hfresh : ∀ t ∈ st.transactions, t.product_id ≠ st.nextId) :
    (0 < d.current_stock →
        (createProduct st d).2 = none
          ∧ (createProduct st d).1.products =
              st.products ++
                [⟨st.nextId, d.name, d.purchase_price, d.sale_price,
                  d.current_stock, d.additional_costs⟩]
          ∧ ((createProduct st d).1.transactions.filter
              fun t => t.product_id = st.nextId) =
              [⟨st.nextId + 1, st.nextId, d.current_stock, TxType.tin,
                "Initial stock"⟩])
      ∧ (¬ 0 < d.current_stock →
          (createProduct st d).2 = none
            ∧ (createProduct st d).1.transactions = st.transactions) := by
  have hfilter :
      ((st.products ++
        [(⟨st.nextId, d.name, d.purchase_price, d.sale_price,
          d.current_stock, d.additional_costs⟩ : Product)]).filter
        fun p => p.name = d.name) =
      [⟨st.nextId, d.name, d.purchase_price, d.sale_price, d.current_stock,
        d.additional_costs⟩] := by
    rw [List.filter_append,
      List.filter_eq_nil_iff.mpr fun a ha => by simp [hname a ha]]
    simp
  constructor
  · intro hpos
    simp only [createProduct]
    rw [if_pos hpos, hfilter]
    refine ⟨rfl, rfl, ?_⟩
    show ((st.transactions ++
        [(⟨st.nextId + 1, st.nextId, d.current_stock, TxType.tin,
          "Initial stock"⟩ : InventoryTransaction)]).filter
        fun t => t.product_id = st.nextId) =
      [⟨st.nextId + 1, st.nextId, d.current_stock, TxType.tin,
        "Initial stock"⟩]
    rw [List.filter_append,
      List.filter_eq_nil_iff.mpr fun a ha => by simp [hfresh a ha]]
    simp
  · intro hneg
    simp only [createProduct]
    rw [if_neg hneg]
    exact ⟨rfl, rfl⟩

/-- C9 (amended) witness: creating "P" with stock 7 in the empty store
succeeds with the single "Initial stock" entry; creating "Empty" with stock
0 appends no transaction. -/
theorem create_product_ledger_entry_witness :
    (createProduct stC9 dC9a).2 = none
      ∧ ((createProduct stC9 dC9a).1.transactions.filter
          fun t => t.product_id = stC9.nextId) =
          [⟨stC9.nextId + 1, stC9.nextId, dC9a.current_stock, TxType.tin,
            "Initial stock"⟩]
      ∧ (createProduct stC9 dC9z).1.transactions = stC9.transactions :=
  ⟨((create_product_ledger_entry stC9 dC9a (by decide) (by decide)).1
      (by decide)).1,
   ((create_product_ledger_entry stC9 dC9a (by decide) (by decide)).1
      (by decide)).2.2,
   ((create_product_ledger_entry stC9 dC9z (by decide) (by decide)).2
      (by decide)).2⟩

/-- C10: every sale recorded by `onSubmit` stores only the free-text
customer-name snapshot: the inserted row's `customer_id` is null (the insert
payload has no such field), whatever the store contains — `recordSale` never
links a Sale to a Customer entity. -/
theorem recordSale_never_links_customer (st : Store) (d : SaleForm) :
    (recordSale st d).1.sales =
      st.sales ++
        [⟨st.nextId, none, d.customer_name,
          d.items.foldl
            (fun t i => t + calculateItemTotal i.price i.quantity i.discount)
            0,
          d.items.foldl (fun t i => t + i.discount) 0,
          d.payment_method, d.payment_status, d.notes⟩] := by
  simp only [recordSale]
  rw [saleProcessItems_sales, saleItemsFold_sales]

end Curuza
